import Mathlib

/-!
Verification of the libccsds Space Packet Protocol core: the chained
data-unit (DU) buffer abstraction, primary-header assembly, the
packet/octet services, and the sequence-count loss-detection state
machine, translated from include/ccsds/common.h, include/ccsds/spp.h and
src/spp_service.cpp.  Machine integers are modelled as Nat (with explicit
mod where C truncation occurs) and Int for the signed loss-tracking
member.
-/

namespace ccsds

/-! ## Data unit chains (ccsds/common.h, class base_du)

A base_du node owns its bytes and an optional successor (the unique_ptr
member ptr).  The two constructors inline the null / non-null states of
the successor pointer. -/

/-- A chained data unit: one node's bytes plus the optional successor
chain (base_du with its unique_ptr member). -/
inductive base_du : Type where
  | single (bytes : List Nat)
  | chain (bytes : List Nat) (next : base_du)
deriving DecidableEq

/-- The bytes of this node only (the virtual size()/get() pair: a node is
modelled by the byte list it exposes). -/
def base_du.bytes : base_du → List Nat
  | .single b => b
  | .chain b _ => b

/-- size(): the size of this node in bytes. -/
def base_du.size (d : base_du) : Nat := d.bytes.length

/-- totalSize(): size() plus, when ptr is non-null, ptr->totalSize(). -/
def base_du.totalSize : base_du → Nat
  | .single b => (base_du.single b).size
  | .chain b d => (base_du.chain b d).size + d.totalSize

/-- length(): 1 when ptr is null, else ptr->length() + 1. -/
def base_du.length : base_du → Nat
  | .single _ => 1
  | .chain _ d => d.length + 1

/-- append(du): ptr.swap(du) — the successor becomes du; a previously
attached successor is dropped (it ends up in the dead argument). -/
def base_du.append : base_du → base_du → base_du
  | .single b, p => .chain b p
  | .chain b _, p => .chain b p

/-- pop(): return std::move(ptr) — gives away the successor chain and
leaves this node with a null ptr. -/
def base_du.pop : base_du → Option base_du × base_du
  | .single b => (none, .single b)
  | .chain b d => (some d, .single b)

/-- next(): borrow the successor pointer. -/
def base_du.next : base_du → Option base_du
  | .single _ => none
  | .chain _ d => some d

/-- The byte lists of the nodes of the chain, head first (specification
view of the chain used to state chain properties). -/
def base_du.nodeBytes : base_du → List (List Nat)
  | .single b => [b]
  | .chain b d => b :: d.nodeBytes

/-! ## 16-bit byte order (ccsds/common.h, swaps / htons / ntohs) -/

/-- swaps(uint16_t x): byte-swap a 16-bit value.  The mod 65536 is the
uint16_t parameter conversion. -/
def swaps (x : Nat) : Nat :=
  (((x % 65536) &&& 0xFF) <<< 8) ||| (((x % 65536) >>> 8) &&& 0xFF)

/-- htons on a little-endian host is swaps. -/
def htons (x : Nat) : Nat := swaps x

/-- ntohs on a little-endian host is swaps. -/
def ntohs (x : Nat) : Nat := swaps x

/-! ## Error codes (ccsds/common.h, class error) -/

/-- Error codes used in libccsds. -/
inductive error : Type where
  | NONE
  | NO_SUPPORT
  | NO_NETWORK
deriving DecidableEq

namespace spp

/-! ## Primary header (ccsds/spp.h, struct primary_header)

The three uint16_t members hold the values already converted with htons;
the wire image below is their little-endian in-memory layout, which by
construction of htons is the big-endian header of the standard. -/

/-- Space Packet Primary Header: stored (post-htons) field values. -/
structure primary_header : Type where
  identification : Nat
  sequence_control : Nat
  data_length : Nat
deriving DecidableEq

/-- Little-endian in-memory image of a uint16_t member. -/
def bytes16 (v : Nat) : List Nat := [v % 65536 % 256, v % 65536 / 256]

/-- The six octets of the packed primary_header struct in memory order. -/
def primary_header.wire (h : primary_header) : List Nat :=
  bytes16 h.identification ++ bytes16 h.sequence_control ++ bytes16 h.data_length

/-! Assembly helper enums from spp_service.cpp. -/

/-- Packet version number. -/
def PACKET_VERSION_1 : Nat := 0
/-- Packet version shift in identification field. -/
def PACKET_VERSION_SHIFT : Nat := 13
/-- Packet type mask in identification field. -/
def PACKET_TYPE_MASK : Nat := 0x1
/-- Packet type shift in identification field. -/
def PACKET_TYPE_SHIFT : Nat := 12
/-- Packet secondary header flag shift in identification field. -/
def PACKET_SEC_HDR_SHIFT : Nat := 11
/-- APID mask in identification field. -/
def PACKET_APID_MASK : Nat := 0x7FF
/-- Unsegmented user data flag. -/
def SEQUENCE_UNSEGMENTED : Nat := 0b11
/-- Sequence flags shift in sequence_control field. -/
def SEQUENCE_FLAGS_SHIFT : Nat := 14
/-- Sequence count mask in sequence_control field. -/
def SEQUENCE_COUNT_MASK : Nat := 0x3FFF

/-- packet_type (enum packet_type : bool): false = TELEMETRY (0),
true = TELECOMMAND (1); its numeric value in the identification field. -/
def packet_type_val (t : Bool) : Nat := if t then 1 else 0

/-- The identification field expression of assembly, before htons:
version, type bit, secondary header flag, APID. -/
def identification_value (t : Bool) (secondary : Bool) (id : Nat) : Nat :=
  (PACKET_VERSION_1 <<< PACKET_VERSION_SHIFT)
    ||| ((packet_type_val t &&& PACKET_TYPE_MASK) <<< PACKET_TYPE_SHIFT)
    ||| ((if secondary then 1 else 0) <<< PACKET_SEC_HDR_SHIFT)
    ||| (id &&& PACKET_APID_MASK)

/-- The sequence_control field expression of assembly, before htons:
sequence flags and a 14-bit count or name. -/
def sequence_value (c : Nat) : Nat :=
  (SEQUENCE_UNSEGMENTED <<< SEQUENCE_FLAGS_SHIFT) ||| (c &&& SEQUENCE_COUNT_MASK)

/-- size_t subtraction of 1 (totalSize() - 1): wraps modulo 2^64. -/
def size_sub1 (n : Nat) : Nat := (n + (2 ^ 64 - 1)) % 2 ^ 64

/-! ## Services (ccsds/spp.h and spp_service.cpp)

The octet_service state: configured APID, the running uint16_t
packet_count, the loss-tracking last_count and whether an indication
callback has been registered.  The owned packet_service's subnetwork
pointer is passed explicitly to the operations that use it, as an
optional transfer function (null pointer = none).

Modelled from the spec: the declaration of the last_count member is in
the current ccsds/spp.h revision, which is not among the sources; per
the spec it is a signed value holding the -1 sentinel until the first
reception, so it is modelled as Int.  All uses in spp_service.cpp are
reproduced from that source. -/

/-- Octet service instance state. -/
structure octet_service : Type where
  id : Nat
  packet_count : Nat
  last_count : Int
  has_callback : Bool
deriving DecidableEq

/-- Constructor octet_service(id, subnetwork): packet_count(0),
last_count(-1), callback(nullptr). -/
def octet_service.init (id : Nat) : octet_service :=
  { id := id, packet_count := 0, last_count := -1, has_callback := false }

/-- set_indication(func): register the indication callback. -/
def octet_service.set_indication (svc : octet_service) : octet_service :=
  { svc with has_callback := true }

/-- assembly (packet_type overload): build the primary header around the
payload, using and post-incrementing the running packet_count.  Returns
the header, the assembled packet DU (header node with the payload chain
appended) and the updated service state. -/
def assembly_count (svc : octet_service) (sdu : base_du) (secondary : Bool) (t : Bool) :
    primary_header × base_du × octet_service :=
  let header : primary_header :=
    { identification := htons (identification_value t secondary svc.id),
      sequence_control := htons (sequence_value svc.packet_count),
      data_length := htons (size_sub1 sdu.totalSize) }
  (header, (base_du.single header.wire).append sdu,
    { svc with packet_count := (svc.packet_count + 1) % 65536 })

/-- assembly (name overload): as assembly_count but the type bit is
TELECOMMAND, the sequence field carries the caller-supplied name
(a uint16_t, masked to 14 bits) and packet_count is untouched. -/
def assembly_name (svc : octet_service) (sdu : base_du) (secondary : Bool) (name : Nat) :
    primary_header × base_du × octet_service :=
  let header : primary_header :=
    { identification := htons (identification_value true secondary svc.id),
      sequence_control := htons (sequence_value (name % 65536)),
      data_length := htons (size_sub1 sdu.totalSize) }
  (header, (base_du.single header.wire).append sdu, svc)

/-- packet_service::transfer: forward to the subnetwork when one is
configured, returning its error, else NO_NETWORK.  The second component
records the DUs handed to the subnetwork by this call. -/
def packet_transfer (subnetwork : Option (base_du → error)) (sdu : base_du) :
    error × List base_du :=
  match subnetwork with
  | some f => (f sdu, [sdu])
  | none => (error.NO_NETWORK, [])

/-- octet_service::request (packet_type overload): assemble with the
counter, then hand the packet to the owned packet_service's transfer.
Returns the error, the new service state and the DUs the subnetwork
received. -/
def octet_request_count (svc : octet_service) (subnetwork : Option (base_du → error))
    (sdu : base_du) (secondary : Bool) (t : Bool) :
    error × octet_service × List base_du :=
  let r := assembly_count svc sdu secondary t
  let tr := packet_transfer subnetwork r.2.1
  (tr.1, r.2.2, tr.2)

/-- octet_service::request (name overload). -/
def octet_request_name (svc : octet_service) (subnetwork : Option (base_du → error))
    (sdu : base_du) (secondary : Bool) (name : Nat) :
    error × octet_service × List base_du :=
  let r := assembly_name svc sdu secondary name
  let tr := packet_transfer subnetwork r.2.1
  (tr.1, r.2.2, tr.2)

/-- The data an indication callback invocation receives: the popped
payload chain, the APID and the packet-loss flag. -/
structure indication_data : Type where
  payload : Option base_du
  id : Nat
  packet_loss : Bool
deriving DecidableEq

/-- octet_service::reception: filter by APID (from wire byte order);
on a match compute the loss flag from last_count, record the received
count, and when a callback is registered invoke it with the popped
payload.  The pdu argument is its typed header plus the chained payload.
The bitmask (last_count + 1) & SEQUENCE_COUNT_MASK on a two's-complement
int is the nonnegative residue modulo 2^14, written here with Int.emod. -/
def octet_reception (svc : octet_service) (header : primary_header)
    (ptr : Option base_du) : octet_service × Option indication_data :=
  let pdu_id := ntohs header.identification &&& PACKET_APID_MASK
  if pdu_id = svc.id then
    let count := ntohs header.sequence_control &&& SEQUENCE_COUNT_MASK
    let loss : Bool := if count = ((svc.last_count + 1) % 16384).toNat then false else true
    let svc2 := { svc with last_count := (count : Int) }
    if svc.has_callback then
      (svc2, some { payload := ptr, id := svc.id, packet_loss := loss })
    else
      (svc2, none)
  else
    (svc, none)

/-- The octet_service state after k counter-based request calls on a
fresh service. -/
def afterRequests (id : Nat) (subnetwork : Option (base_du → error)) (sdu : base_du)
    (secondary : Bool) (t : Bool) : Nat → octet_service
  | 0 => octet_service.init id
  | k + 1 => (octet_request_count (afterRequests id subnetwork sdu secondary t k)
      subnetwork sdu secondary t).2.1

/-! ## Big-endian field decoding (specification view)

The claims speak of decoding the 6-octet big-endian header; these
decoders read the assembled wire image back by the layout of section 6
of the spec. -/

/-- The i-th big-endian 16-bit word of a byte list. -/
def word16BE (b : List Nat) (i : Nat) : Nat :=
  256 * b.getD (2 * i) 0 + b.getD (2 * i + 1) 0

/-- Decoded packet version number (top 3 bits of word 0). -/
def decode_version (b : List Nat) : Nat := word16BE b 0 / 8192
/-- Decoded packet type bit. -/
def decode_type (b : List Nat) : Nat := word16BE b 0 / 4096 % 2
/-- Decoded secondary header flag bit. -/
def decode_secondary (b : List Nat) : Nat := word16BE b 0 / 2048 % 2
/-- Decoded APID (low 11 bits of word 0). -/
def decode_apid (b : List Nat) : Nat := word16BE b 0 % 2048
/-- Decoded sequence flags (top 2 bits of word 1). -/
def decode_seq_flags (b : List Nat) : Nat := word16BE b 1 / 16384
/-- Decoded sequence count or name (low 14 bits of word 1). -/
def decode_seq_count (b : List Nat) : Nat := word16BE b 1 % 16384
/-- Decoded data length field (word 2). -/
def decode_data_length (b : List Nat) : Nat := word16BE b 2

/-- A concrete header image used by closed instances: APID id, sequence
count c, stored in wire byte order like an assembled packet's header. -/
def sample_header (id c : Nat) : primary_header :=
  { identification := htons (identification_value false false id),
    sequence_control := htons (sequence_value c),
    data_length := htons 9 }

/-- A service that has already tracked a reception: the state reached
after a fresh service with a registered callback receives a matching
packet with sequence count c. -/
def tracking_service (id c : Nat) : octet_service :=
  { id := id, packet_count := 0, last_count := (c : Int), has_callback := true }

end spp

/-! ## Bitwise arithmetic helpers -/

/-- A bitwise OR whose left operand has no bits below 2^k and whose right
operand lies below 2^k is plain addition. -/
theorem lor_eq_add (k : Nat) : ∀ a b : Nat, a % 2 ^ k = 0 → b < 2 ^ k → a ||| b = a + b := by
  induction k with
  | zero =>
    intro a b _ hb
    interval_cases b
    simp
  | succ k ih =>
    intro a b ha hb
    have hdvd : 2 ^ (k + 1) ∣ a := Nat.dvd_of_mod_eq_zero ha
    obtain ⟨m, hm⟩ := hdvd
    have hpow : (2 : Nat) ^ (k + 1) = 2 * 2 ^ k := by ring
    have ha2 : a % 2 = 0 := by
      subst hm
      rw [hpow, Nat.mul_assoc]
      exact Nat.mul_mod_right 2 _
    have hdiv : a / 2 = 2 ^ k * m := by
      subst hm
      rw [hpow, Nat.mul_assoc, Nat.mul_div_cancel_left _ (by norm_num)]
    have ihd : a / 2 ||| b / 2 = a / 2 + b / 2 := by
      apply ih
      · rw [hdiv]; exact Nat.mul_mod_right _ _
      · rw [hpow] at hb; omega
    have hmod2 : (a ||| b) % 2 = b % 2 := by
      have h := Nat.or_mod_two_eq_one (a := a) (b := b)
      omega
    have hstep : a ||| b = 2 * ((a ||| b) / 2) + (a ||| b) % 2 := by omega
    rw [hstep, Nat.or_div_two, ihd, hmod2]
    omega

/-- Mask with 0xFF is mod 256. -/
theorem and_255 (x : Nat) : x &&& 255 = x % 256 := by
  have h : (255 : Nat) = 2 ^ 8 - 1 := by norm_num
  rw [h, Nat.and_pow_two_sub_one_eq_mod]

/-- Mask with 0x7FF is mod 2048. -/
theorem and_2047 (x : Nat) : x &&& 2047 = x % 2048 := by
  have h : (2047 : Nat) = 2 ^ 11 - 1 := by norm_num
  rw [h, Nat.and_pow_two_sub_one_eq_mod]

/-- Mask with 0x3FFF is mod 16384. -/
theorem and_16383 (x : Nat) : x &&& 16383 = x % 16384 := by
  have h : (16383 : Nat) = 2 ^ 14 - 1 := by norm_num
  rw [h, Nat.and_pow_two_sub_one_eq_mod]

/-- swaps as plain arithmetic: low byte shifted up, high byte shifted
down. -/
theorem swaps_arith (v : Nat) : swaps v = v % 65536 % 256 * 256 + v % 65536 / 256 := by
  unfold swaps
  have h1 : v % 65536 &&& 0xFF = v % 65536 % 256 := and_255 _
  have h2 : (v % 65536) >>> 8 = v % 65536 / 256 := by
    rw [Nat.shiftRight_eq_div_pow]
  have h3 : (v % 65536 / 256) &&& 0xFF = v % 65536 / 256 := by
    rw [and_255]
    omega
  rw [h1, h2, h3, Nat.shiftLeft_eq]
  have h4 : v % 65536 % 256 * 2 ^ 8 = v % 65536 % 256 * 256 := by norm_num
  rw [h4]
  apply lor_eq_add 8
  · norm_num [Nat.mul_mod_left]
  · norm_num
    omega

/-- swaps stays below 2^16. -/
theorem swaps_lt (v : Nat) : swaps v < 65536 := by
  rw [swaps_arith]
  omega

/-- swaps is an involution up to uint16_t truncation. -/
theorem swaps_swaps (v : Nat) : swaps (swaps v) = v % 65536 := by
  rw [swaps_arith v, swaps_arith]
  have hlt : v % 65536 % 256 * 256 + v % 65536 / 256 < 65536 := by omega
  rw [Nat.mod_eq_of_lt hlt]
  omega

/-- Reading back a stored (htons) field recovers the value mod 2^16. -/
theorem swaps_htons (v : Nat) : swaps (htons v) = v % 65536 :=
  swaps_swaps v

namespace spp

/-! ## Arithmetic forms of the assembled fields -/

/-- The identification field as plain arithmetic: type bit, secondary
bit and masked APID in their positions. -/
theorem identification_value_arith (t s : Bool) (a : Nat) :
    identification_value t s a
      = packet_type_val t * 4096 + (if s then 1 else 0) * 2048 + a % 2048 := by
  unfold identification_value PACKET_VERSION_1 PACKET_VERSION_SHIFT PACKET_TYPE_MASK
    PACKET_TYPE_SHIFT PACKET_SEC_HDR_SHIFT PACKET_APID_MASK
  have htv : packet_type_val t &&& 1 = packet_type_val t := by
    cases t <;> decide
  rw [htv, Nat.zero_shiftLeft, and_2047]
  have hA : (packet_type_val t <<< 12) % 2 ^ 12 = 0 := by
    cases t <;> decide
  have hB : (if s then (1 : Nat) else 0) <<< 11 < 2 ^ 12 := by
    cases s <;> decide
  have hz : (0 : Nat) ||| packet_type_val t <<< 12 = packet_type_val t <<< 12 :=
    Nat.zero_or _
  rw [hz, lor_eq_add 12 _ _ hA hB]
  have hAB : (packet_type_val t <<< 12 + (if s then (1 : Nat) else 0) <<< 11) % 2 ^ 11 = 0 := by
    cases t <;> cases s <;> decide
  have hC : a % 2048 < 2 ^ 11 := by omega
  rw [lor_eq_add 11 _ _ hAB hC]
  cases t <;> cases s <;> simp [packet_type_val]

/-- The sequence_control field as plain arithmetic: unsegmented flags on
top of the masked count. -/
theorem sequence_value_arith (c : Nat) : sequence_value c = 49152 + c % 16384 := by
  unfold sequence_value SEQUENCE_UNSEGMENTED SEQUENCE_FLAGS_SHIFT SEQUENCE_COUNT_MASK
  rw [and_16383]
  have h1 : ((3 : Nat) <<< 14) % 2 ^ 14 = 0 := by decide
  have h2 : c % 16384 < 2 ^ 14 := by omega
  rw [lor_eq_add 14 _ _ h1 h2]
  norm_num
  decide

/-! ## Wire image words -/

/-- Word 0 of the wire image is the byte swap of the stored
identification. -/
theorem word16BE_wire0 (h : primary_header) :
    word16BE h.wire 0 = swaps h.identification := by
  simp [word16BE, primary_header.wire, bytes16, swaps_arith]
  omega

/-- Word 1 of the wire image is the byte swap of the stored
sequence_control. -/
theorem word16BE_wire1 (h : primary_header) :
    word16BE h.wire 1 = swaps h.sequence_control := by
  simp [word16BE, primary_header.wire, bytes16, swaps_arith]
  omega

/-- Word 2 of the wire image is the byte swap of the stored
data_length. -/
theorem word16BE_wire2 (h : primary_header) :
    word16BE h.wire 2 = swaps h.data_length := by
  simp [word16BE, primary_header.wire, bytes16, swaps_arith]
  omega

/-- The wire image is six octets. -/
theorem wire_length (h : primary_header) : h.wire.length = 6 := by
  simp [primary_header.wire, bytes16]

/-- The packet built by the counter-based assembly: header node chained
to the payload. -/
theorem assembly_count_du (svc : octet_service) (P : base_du) (s t : Bool) :
    (assembly_count svc P s t).2.1
      = base_du.chain (assembly_count svc P s t).1.wire P := by
  cases P <;> rfl

/-- The stored fields of the counter-based assembly's header. -/
theorem assembly_count_fields (svc : octet_service) (P : base_du) (s t : Bool) :
    (assembly_count svc P s t).1.identification
        = htons (identification_value t s svc.id) ∧
    (assembly_count svc P s t).1.sequence_control
        = htons (sequence_value svc.packet_count) ∧
    (assembly_count svc P s t).1.data_length = htons (size_sub1 P.totalSize) :=
  ⟨rfl, rfl, rfl⟩

/-- The packet built by the name-based assembly. -/
theorem assembly_name_du (svc : octet_service) (P : base_du) (s : Bool) (name : Nat) :
    (assembly_name svc P s name).2.1
      = base_du.chain (assembly_name svc P s name).1.wire P := by
  cases P <;> rfl

/-- The stored fields of the name-based assembly's header. -/
theorem assembly_name_fields (svc : octet_service) (P : base_du) (s : Bool) (name : Nat) :
    (assembly_name svc P s name).1.identification
        = htons (identification_value true s svc.id) ∧
    (assembly_name svc P s name).1.sequence_control
        = htons (sequence_value (name % 65536)) ∧
    (assembly_name svc P s name).1.data_length = htons (size_sub1 P.totalSize) :=
  ⟨rfl, rfl, rfl⟩

/-- After k counter-based requests the running counter is k mod 2^16. -/
theorem afterRequests_packet_count (id : Nat) (sn : Option (base_du → error))
    (sdu : base_du) (s t : Bool) (k : Nat) :
    (afterRequests id sn sdu s t k).packet_count = k % 65536 := by
  induction k with
  | zero => rfl
  | succ k ih =>
    show ((afterRequests id sn sdu s t k).packet_count + 1) % 65536 = (k + 1) % 65536
    rw [ih]
    omega

/-- A reception on a tracking service (last_count = c, callback set,
matching APID): the count is recorded and the loss flag compares the
count with (c+1) mod 16384. -/
theorem octet_reception_tracking (svc : octet_service) (c : Nat) (header : primary_header)
    (ptr : Option base_du) (hlast : svc.last_count = (c : Int))
    (hcb : svc.has_callback = true)
    (hmatch : ntohs header.identification &&& PACKET_APID_MASK = svc.id) :
    (octet_reception svc header ptr).1.id = svc.id ∧
    (octet_reception svc header ptr).1.has_callback = true ∧
    (octet_reception svc header ptr).1.last_count
      = ((ntohs header.sequence_control &&& SEQUENCE_COUNT_MASK : Nat) : Int) ∧
    (octet_reception svc header ptr).2
      = some
        { payload := ptr, id := svc.id,
          packet_loss := if ntohs header.sequence_control &&& SEQUENCE_COUNT_MASK
              = (c + 1) % 16384 then false else true } := by
  have hexp : ((svc.last_count + 1) % 16384).toNat = (c + 1) % 16384 := by
    rw [hlast]
    omega
  unfold octet_reception
  simp only [hmatch, if_pos rfl, hcb, if_true, hexp]
  exact ⟨trivial, trivial, trivial, trivial⟩

/-! ## Claims -/

/-- Claim C2 counterexample: a freshly constructed service (callback
registered) receiving a first APID-matching packet with sequence count 1
reports packet_loss = true, although the claim requires false for every
first reception. -/
theorem claim_C2_cex :
    (octet_reception ((octet_service.init 427).set_indication)
        (sample_header 427 1) none).2
      = some { payload := none, id := 427, packet_loss := true } := by
  decide

/-- Claim C2 (amended): on a freshly constructed service the first
APID-matching reception reports packet_loss = false exactly when the
carried sequence count is 0 — the expected successor of the -1
initializer — and is flagged as loss for any other count; the count is
recorded either way. -/
theorem claim_C2_amended (id : Nat) (header : primary_header) (ptr : Option base_du)
    (hmatch : ntohs header.identification &&& PACKET_APID_MASK = id) :
    (octet_reception ((octet_service.init id).set_indication) header ptr).2
      = some
        { payload := ptr, id := id,
          packet_loss := if ntohs header.sequence_control &&& SEQUENCE_COUNT_MASK = 0
              then false else true } ∧
    (octet_reception ((octet_service.init id).set_indication) header ptr).1.last_count
      = ((ntohs header.sequence_control &&& SEQUENCE_COUNT_MASK : Nat) : Int) := by
  have hexp : ((((octet_service.init id).set_indication).last_count + 1) % 16384).toNat
      = 0 := rfl
  unfold octet_reception
  have hid : ((octet_service.init id).set_indication).id = id := rfl
  have hcb : ((octet_service.init id).set_indication).has_callback = true := rfl
  simp only [hid, hmatch, if_pos rfl, hcb, if_true, hexp]
  exact ⟨trivial, trivial⟩

/-- Claim C2 (amended) witness: a first packet carrying count 5 is
flagged as lost and 5 is recorded. -/
theorem claim_C2_amended_wit :
    (octet_reception ((octet_service.init 427).set_indication)
        (sample_header 427 5) none).2
      = some
        { payload := none, id := 427,
          packet_loss := if ntohs (sample_header 427 5).sequence_control
              &&& SEQUENCE_COUNT_MASK = 0 then false else true } ∧
    (octet_reception ((octet_service.init 427).set_indication)
        (sample_header 427 5) none).1.last_count
      = ((ntohs (sample_header 427 5).sequence_control &&& SEQUENCE_COUNT_MASK : Nat) : Int) :=
  claim_C2_amended 427 (sample_header 427 5) none (by decide)

/-- Claim C3: on a service already tracking last_count = c, a matching
reception with count k reports packet_loss = false exactly when
k = (c+1) mod 16384, records k either way, and a following matching
reception whose count is consecutive with k is not flagged. -/
theorem claim_C3 (svc : octet_service) (c : Nat) (header hdr2 : primary_header)
    (ptr ptr2 : Option base_du)
    (hlast : svc.last_count = (c : Int)) (hcb : svc.has_callback = true)
    (hmatch : ntohs header.identification &&& PACKET_APID_MASK = svc.id)
    (hmatch2 : ntohs hdr2.identification &&& PACKET_APID_MASK = svc.id)
    (hnext : ntohs hdr2.sequence_control &&& SEQUENCE_COUNT_MASK
        = ((ntohs header.sequence_control &&& SEQUENCE_COUNT_MASK) + 1) % 16384) :
    (octet_reception svc header ptr).2
      = some
        { payload := ptr, id := svc.id,
          packet_loss := if ntohs header.sequence_control &&& SEQUENCE_COUNT_MASK
              = (c + 1) % 16384 then false else true } ∧
    (octet_reception svc header ptr).1.last_count
      = ((ntohs header.sequence_control &&& SEQUENCE_COUNT_MASK : Nat) : Int) ∧
    (octet_reception (octet_reception svc header ptr).1 hdr2 ptr2).2
      = some { payload := ptr2, id := svc.id, packet_loss := false } := by
  obtain ⟨hid1, hcb1, hlast1, hind1⟩ :=
    octet_reception_tracking svc c header ptr hlast hcb hmatch
  refine ⟨hind1, hlast1, ?_⟩
  have hmatch2b : ntohs hdr2.identification &&& PACKET_APID_MASK
      = (octet_reception svc header ptr).1.id := by
    rw [hid1]
    exact hmatch2
  obtain ⟨_, _, _, hind2⟩ :=
    octet_reception_tracking (octet_reception svc header ptr).1
      (ntohs header.sequence_control &&& SEQUENCE_COUNT_MASK) hdr2 ptr2 hlast1 hcb1 hmatch2b
  rw [hind2, hid1]
  simp [hnext]

/-- Claim C3 witness: tracking 7, receiving 8 (no loss) then 9 (no
loss). -/
theorem claim_C3_wit :
    (octet_reception (tracking_service 427 7) (sample_header 427 8) none).2
      = some
        { payload := none, id := (tracking_service 427 7).id,
          packet_loss := if ntohs (sample_header 427 8).sequence_control
              &&& SEQUENCE_COUNT_MASK = (7 + 1) % 16384 then false else true } ∧
    (octet_reception (tracking_service 427 7) (sample_header 427 8) none).1.last_count
      = ((ntohs (sample_header 427 8).sequence_control &&& SEQUENCE_COUNT_MASK : Nat) : Int) ∧
    (octet_reception (octet_reception (tracking_service 427 7) (sample_header 427 8) none).1
        (sample_header 427 9) none).2
      = some { payload := none, id := (tracking_service 427 7).id, packet_loss := false } :=
  claim_C3 (tracking_service 427 7) 7 (sample_header 427 8) (sample_header 427 9)
    none none (by decide) (by decide) (by decide) (by decide) (by decide)

/-- Claim C4: for every DU chain, totalSize() is the sum of size() over
all nodes of the chain and length() is the number of nodes. -/
theorem claim_C4 (d : base_du) :
    d.totalSize = (d.nodeBytes.map List.length).sum ∧
    d.length = d.nodeBytes.length := by
  induction d with
  | single b =>
    simp [base_du.totalSize, base_du.length, base_du.nodeBytes, base_du.size, base_du.bytes]
  | chain b dd ih =>
    simp [base_du.totalSize, base_du.length, base_du.nodeBytes, base_du.size, base_du.bytes,
      ih.1, ih.2]

/-- Claim C6: appending p to a singleton h and popping returns ownership
of exactly p and leaves h a singleton with length 1 and no successor. -/
theorem claim_C6 (h p : base_du) (hs : h.next = none) :
    (h.append p).pop.1 = some p ∧ (h.append p).pop.2 = h ∧
    (h.append p).pop.2.length = 1 ∧ (h.append p).pop.2.next = none := by
  cases h with
  | single b =>
    simp [base_du.append, base_du.pop, base_du.length, base_du.next]
  | chain b d =>
    simp [base_du.next] at hs

/-- Claim C6 witness: a concrete two-node chain. -/
theorem claim_C6_wit :
    ((base_du.single [1, 2]).append (base_du.single [3])).pop.1
        = some (base_du.single [3]) ∧
    ((base_du.single [1, 2]).append (base_du.single [3])).pop.2 = base_du.single [1, 2] ∧
    ((base_du.single [1, 2]).append (base_du.single [3])).pop.2.length = 1 ∧
    ((base_du.single [1, 2]).append (base_du.single [3])).pop.2.next = none :=
  claim_C6 (base_du.single [1, 2]) (base_du.single [3]) (by decide)

/-- Claim C7: a reception whose decoded header APID differs from the
configured APID changes nothing and invokes no indication. -/
theorem claim_C7 (svc : octet_service) (header : primary_header) (ptr : Option base_du)
    (hne : ntohs header.identification &&& PACKET_APID_MASK ≠ svc.id) :
    octet_reception svc header ptr = (svc, none) := by
  unfold octet_reception
  simp [hne]

/-- Claim C7 witness: a fresh service with APID 5 drops a packet
addressed to APID 6. -/
theorem claim_C7_wit :
    octet_reception (octet_service.init 5) (sample_header 6 0) none
      = (octet_service.init 5, none) :=
  claim_C7 (octet_service.init 5) (sample_header 6 0) none (by decide)

/-- Claim C8: packet_service::transfer returns NO_NETWORK and delivers
the DU nowhere without a subnetwork; with one it forwards the DU to it
exactly once and returns the subnetwork's error unchanged. -/
theorem claim_C8 (d : base_du) (f : base_du → error) :
    packet_transfer none d = (error.NO_NETWORK, []) ∧
    packet_transfer (some f) d = (f d, [d]) :=
  ⟨rfl, rfl⟩

/-- Claim C1: the counter-based assembly wraps the payload P (of total
size n, 1 <= n, n-1 < 2^16) in a packet whose 6-octet big-endian primary
header decodes to version 0, the requested type bit and secondary flag,
the configured APID, sequence flags 0b11 and data length n-1; the
payload chain hangs unchanged behind the header, and the packet's
totalSize is n+6.  The packet is exactly what the counter-based request
hands to the packet service. -/
theorem claim_C1 (svc : octet_service) (P : base_du) (s t : Bool)
    (ha : svc.id < 2048) (h1 : 1 ≤ P.totalSize) (h2 : P.totalSize - 1 < 65536) :
    decode_version (assembly_count svc P s t).2.1.bytes = 0 ∧
    decode_type (assembly_count svc P s t).2.1.bytes = packet_type_val t ∧
    decode_secondary (assembly_count svc P s t).2.1.bytes = (if s then 1 else 0) ∧
    decode_apid (assembly_count svc P s t).2.1.bytes = svc.id ∧
    decode_seq_flags (assembly_count svc P s t).2.1.bytes = 3 ∧
    decode_data_length (assembly_count svc P s t).2.1.bytes = P.totalSize - 1 ∧
    (assembly_count svc P s t).2.1.next = some P ∧
    (assembly_count svc P s t).2.1.totalSize = P.totalSize + 6 := by
  rw [assembly_count_du]
  obtain ⟨hf0, hf1, hf2⟩ := assembly_count_fields svc P s t
  have hw0 := word16BE_wire0 (assembly_count svc P s t).1
  have hw1 := word16BE_wire1 (assembly_count svc P s t).1
  have hw2 := word16BE_wire2 (assembly_count svc P s t).1
  rw [hf0, swaps_htons, identification_value_arith] at hw0
  rw [hf1, swaps_htons, sequence_value_arith] at hw1
  rw [hf2, swaps_htons] at hw2
  have htv : packet_type_val t ≤ 1 := by cases t <;> simp [packet_type_val]
  have hsv : (if s then (1 : Nat) else 0) ≤ 1 := by cases s <;> simp
  refine ⟨?_, ?_, ?_, ?_, ?_, ?_, ?_, ?_⟩
  · unfold decode_version
    simp only [base_du.bytes]
    rw [hw0]
    omega
  · unfold decode_type
    simp only [base_du.bytes]
    rw [hw0]
    omega
  · unfold decode_secondary
    simp only [base_du.bytes]
    rw [hw0]
    omega
  · unfold decode_apid
    simp only [base_du.bytes]
    rw [hw0]
    omega
  · unfold decode_seq_flags
    simp only [base_du.bytes]
    rw [hw1]
    omega
  · unfold decode_data_length
    simp only [base_du.bytes]
    rw [hw2]
    unfold size_sub1
    omega
  · rfl
  · have hts : (base_du.chain (assembly_count svc P s t).1.wire P).totalSize
        = (assembly_count svc P s t).1.wire.length + P.totalSize := rfl
    rw [hts, wire_length]
    omega

/-- Claim C1 witness: APID 0x1AB, a ten-byte payload, telecommand, no
secondary header. -/
theorem claim_C1_wit :
    decode_version (assembly_count (octet_service.init 427)
        (base_du.single [0, 1, 2, 3, 4, 5, 6, 7, 8, 9]) false true).2.1.bytes = 0 ∧
    decode_type (assembly_count (octet_service.init 427)
        (base_du.single [0, 1, 2, 3, 4, 5, 6, 7, 8, 9]) false true).2.1.bytes
      = packet_type_val true ∧
    decode_secondary (assembly_count (octet_service.init 427)
        (base_du.single [0, 1, 2, 3, 4, 5, 6, 7, 8, 9]) false true).2.1.bytes
      = (if false then 1 else 0) ∧
    decode_apid (assembly_count (octet_service.init 427)
        (base_du.single [0, 1, 2, 3, 4, 5, 6, 7, 8, 9]) false true).2.1.bytes = 427 ∧
    decode_seq_flags (assembly_count (octet_service.init 427)
        (base_du.single [0, 1, 2, 3, 4, 5, 6, 7, 8, 9]) false true).2.1.bytes = 3 ∧
    decode_data_length (assembly_count (octet_service.init 427)
        (base_du.single [0, 1, 2, 3, 4, 5, 6, 7, 8, 9]) false true).2.1.bytes
      = (base_du.single [0, 1, 2, 3, 4, 5, 6, 7, 8, 9]).totalSize - 1 ∧
    (assembly_count (octet_service.init 427)
        (base_du.single [0, 1, 2, 3, 4, 5, 6, 7, 8, 9]) false true).2.1.next
      = some (base_du.single [0, 1, 2, 3, 4, 5, 6, 7, 8, 9]) ∧
    (assembly_count (octet_service.init 427)
        (base_du.single [0, 1, 2, 3, 4, 5, 6, 7, 8, 9]) false true).2.1.totalSize
      = (base_du.single [0, 1, 2, 3, 4, 5, 6, 7, 8, 9]).totalSize + 6 :=
  claim_C1 (octet_service.init 427) (base_du.single [0, 1, 2, 3, 4, 5, 6, 7, 8, 9])
    false true (by decide) (by decide) (by decide)

/-- Claim C5: the i-th counter-based request on a fresh service (i
counted from 1) forwards exactly the packet assembled from its state,
and that packet's sequence-count field decodes to (i-1) mod 16384; in
particular call 16385 emits 0 again. -/
theorem claim_C5 (id : Nat) (f : base_du → error) (sdu : base_du) (s t : Bool)
    (i : Nat) (hi : 1 ≤ i) :
    (octet_request_count (afterRequests id (some f) sdu s t (i - 1))
        (some f) sdu s t).2.2
      = [(assembly_count (afterRequests id (some f) sdu s t (i - 1)) sdu s t).2.1] ∧
    decode_seq_count
        (assembly_count (afterRequests id (some f) sdu s t (i - 1)) sdu s t).2.1.bytes
      = (i - 1) % 16384 := by
  constructor
  · rfl
  · rw [assembly_count_du]
    have hw1 := word16BE_wire1
      (assembly_count (afterRequests id (some f) sdu s t (i - 1)) sdu s t).1
    rw [(assembly_count_fields (afterRequests id (some f) sdu s t (i - 1)) sdu s t).2.1,
      swaps_htons, afterRequests_packet_count, sequence_value_arith] at hw1
    unfold decode_seq_count
    simp only [base_du.bytes]
    rw [hw1]
    omega

/-- Claim C5 witness: the first call on a fresh service emits sequence
count 0. -/
theorem claim_C5_wit :
    (octet_request_count (afterRequests 427 (some fun _ => error.NONE)
        (base_du.single [7]) false false (1 - 1))
        (some fun _ => error.NONE) (base_du.single [7]) false false).2.2
      = [(assembly_count (afterRequests 427 (some fun _ => error.NONE)
          (base_du.single [7]) false false (1 - 1)) (base_du.single [7]) false false).2.1] ∧
    decode_seq_count
        (assembly_count (afterRequests 427 (some fun _ => error.NONE)
          (base_du.single [7]) false false (1 - 1)) (base_du.single [7]) false false).2.1.bytes
      = (1 - 1) % 16384 :=
  claim_C5 427 (fun _ => error.NONE) (base_du.single [7]) false false 1 (by decide)

/-- Claim C9: every counter-based request advances the running counter
by exactly one modulo 2^16 whatever the subnetwork (including a missing
one, since assembly precedes the transfer), while the name-based request
leaves the service state untouched, writes the caller's name masked to
14 bits into the sequence field, and forces the type bit to
TELECOMMAND. -/
theorem claim_C9 (svc : octet_service) (sn : Option (base_du → error)) (sdu : base_du)
    (s t : Bool) (name : Nat) :
    (octet_request_count svc sn sdu s t).2.1.packet_count
      = (svc.packet_count + 1) % 65536 ∧
    (octet_request_name svc sn sdu s name).2.1 = svc ∧
    decode_seq_count (assembly_name svc sdu s name).2.1.bytes = name % 16384 ∧
    decode_type (assembly_name svc sdu s name).2.1.bytes = 1 := by
  refine ⟨rfl, rfl, ?_, ?_⟩
  · rw [assembly_name_du]
    have hw1 := word16BE_wire1 (assembly_name svc sdu s name).1
    rw [(assembly_name_fields svc sdu s name).2.1, swaps_htons, sequence_value_arith] at hw1
    unfold decode_seq_count
    simp only [base_du.bytes]
    rw [hw1]
    omega
  · rw [assembly_name_du]
    have hw0 := word16BE_wire0 (assembly_name svc sdu s name).1
    rw [(assembly_name_fields svc sdu s name).1, swaps_htons,
      identification_value_arith] at hw0
    have hsv : (if s then (1 : Nat) else 0) ≤ 1 := by cases s <;> simp
    have htv : packet_type_val true = 1 := rfl
    rw [htv] at hw0
    unfold decode_type
    simp only [base_du.bytes]
    rw [hw0]
    omega

/-- Claim C10: append on a node that already has a successor does not
fail (it is a total function returning no error); it deterministically
replaces the successor, next() then refers to the new DU, and the node's
chain consists of this node's bytes followed by the new DU's chain, so
the old successor chain is no longer reachable. -/
theorem claim_C10 (d p : base_du) (hd : d.next ≠ none) :
    d.append p = base_du.chain d.bytes p ∧
    (d.append p).next = some p ∧
    (d.append p).nodeBytes = d.bytes :: p.nodeBytes := by
  cases d with
  | single b => simp [base_du.next] at hd
  | chain b dd =>
    simp [base_du.append, base_du.bytes, base_du.next, base_du.nodeBytes]

/-- Claim C10 witness: replacing a successor on a concrete chain. -/
theorem claim_C10_wit :
    (base_du.chain [1] (base_du.single [2])).append (base_du.single [3])
        = base_du.chain [1] (base_du.single [3]) ∧
    ((base_du.chain [1] (base_du.single [2])).append (base_du.single [3])).next
        = some (base_du.single [3]) ∧
    ((base_du.chain [1] (base_du.single [2])).append (base_du.single [3])).nodeBytes
        = [1] :: (base_du.single [3]).nodeBytes :=
  claim_C10 (base_du.chain [1] (base_du.single [2])) (base_du.single [3]) (by decide)

end spp

end ccsds
